import Mathlib

/-!
Verification of the Protagonist proxy server (server/main.py): a
device-authenticated metering gateway in front of an upstream LLM provider.

Shallow embedding conventions:
* JSON values (the output of json.loads and the bodies handed to httpx)
  are modelled by the inductive type `J`; Python truthiness of a JSON
  value is `J.truthy`.
* The SQLite database is modelled by `State`: the `devices` table as a
  list of `Device` rows and the `usage` table as a list of `UsageRec`
  rows (appends model INSERT, `List.map` over rows models UPDATE).
  Python's sqlite3 runs in implicit-transaction mode: DML statements
  open a transaction that is persisted only by conn.commit(); closing
  the connection without committing rolls the transaction back.  Each
  database-touching function therefore returns the post-COMMIT state:
  on a path that raises before conn.commit() the caller keeps the input
  state (rollback).
* Wall-clock reads (`_today()`, datetime.now) are threaded as the string
  parameters `today` / `now`; module-level configuration
  (DAILY_TOKEN_LIMIT, BRAVE_API_KEY) as explicit parameters.
* The upstream HTTP calls made through httpx are parameters of the route
  functions: a function from the forwarded request data to the upstream
  response (status code plus parsed-JSON body, `none` when resp.json()
  would fail because the body is not JSON).
* An uncaught Python exception inside a handler (for example an
  AttributeError from calling .get on a non-dict) is the `pyError`
  outcome; an HTTPException(status, detail) raised by the handler is
  `httpError status detail`.
-/

/-- JSON values, the result type of Python's json.loads. An object is a
field list with distinct keys (json.loads keeps the last duplicate, so
its output has unique keys); lookup takes the first match. -/
inductive J where
  | null
  | bool (b : Bool)
  | num (n : Int)
  | str (s : String)
  | arr (elems : List J)
  | obj (fields : List (String × J))

/-- Python truthiness of a JSON value: None, False, 0, empty string,
empty list and empty dict are falsy. -/
def J.truthy : J → Bool
  | .null => false
  | .bool b => b
  | .num n => n != 0
  | .str s => s != ""
  | .arr xs => !xs.isEmpty
  | .obj kvs => !kvs.isEmpty

/-- Models dict.get(k, 0) on a JSON-object field list when the call site
consumes the value as a token count. Numeric fields yield their value;
an absent field yields the Python default 0. A present non-numeric field
is modelled as 0 as well (the provider contract makes token fields
numbers; no claim touches that corner). -/
def getNumD (kvs : List (String × J)) (k : String) (dflt : Int) : Int :=
  match kvs.lookup k with
  | some (J.num n) => n
  | some _ => 0
  | none => dflt

/-- Models Python's len() on a JSON value: defined on strings, lists and
dicts, a TypeError (`none`) otherwise. -/
def pyLen : J → Option Nat
  | .str s => some s.length
  | .arr xs => some xs.length
  | .obj kvs => some kvs.length
  | _ => none

/-- fastapi.HTTPException(status_code, detail). The detail is a string
for the gateway's own errors and the upstream JSON body when the
provider's non-200 response is propagated. -/
structure HTTPExc where
  status : Nat
  detail : J

/-- One row of the devices table. -/
structure Device where
  device_id : String
  created_at : String
  last_seen : String
deriving DecidableEq

/-- One row of the usage table (the AUTOINCREMENT id is the list
position and is never read by the code, so it is left implicit). -/
structure UsageRec where
  device_id : String
  date : String
  endpoint : String
  tokens_in : Int
  tokens_out : Int
  created_at : String
deriving DecidableEq

/-- The SQLite database: devices and usage tables. -/
structure State where
  devices : List Device
  usage : List UsageRec
deriving DecidableEq

/-- SELECT COALESCE(SUM(tokens_in + tokens_out), 0) FROM usage WHERE
device_id = ? AND date = ? (shared by _check_device and get_usage). -/
def dailyTotal (s : State) (d today : String) : Int :=
  ((s.usage.filter (fun r => r.device_id = d && r.date = today)).map
    (fun r => r.tokens_in + r.tokens_out)).sum

/-- UPDATE devices SET last_seen = ? WHERE device_id = ?. -/
def touchLastSeen (s : State) (d now : String) : State :=
  { s with devices := (s.devices.map
      (fun dev => if dev.device_id = d then { dev with last_seen := now } else dev)) }

/-- The body of _record_usage: INSERT one usage row, then commit. -/
def record_usage (s : State) (d today endpoint : String)
    (tokens_in tokens_out : Int) (now : String) : State :=
  { s with usage := (s.usage ++
      [{ device_id := d, date := today, endpoint := endpoint,
         tokens_in := tokens_in, tokens_out := tokens_out, created_at := now }]) }

/-- Python str.startswith, written at code-point level (Python indexes
and slices strings by code point, exactly the Char list underlying a
Lean string). -/
def pyStartsWith (s pre : String) : Bool :=
  s.toList.take pre.toList.length == pre.toList

/-- Python s[n:], code-point slicing. -/
def pyDrop (s : String) (n : Nat) : String :=
  ⟨s.toList.drop n⟩

/-- Python str.strip() with no argument: remove leading and trailing
whitespace characters. -/
def pyStrip (s : String) : String :=
  ⟨((s.toList.dropWhile Char.isWhitespace).reverse.dropWhile
      Char.isWhitespace).reverse⟩

/-- _extract_device_id: read Authorization: Bearer {device_id}. The
header parameter is the raw header value, "" when the header is absent
(request.headers.get("Authorization", "")). -/
def extract_device_id (auth : String) : Except HTTPExc String :=
  if !pyStartsWith auth "Bearer " then
    .error ⟨401, .str "Missing Authorization header"⟩
  else
    let device_id := pyStrip (pyDrop auth 7)
    if device_id = "" then .error ⟨401, .str "Empty device_id"⟩
    else .ok device_id

/-- The HTTPException raised by _check_device for an unregistered id. -/
def unknownDeviceExc : HTTPExc :=
  ⟨401, .str "Unknown device. Call /v1/register first."⟩

/-- The HTTPException raised by _check_device at the daily cap. -/
def quotaExc (limit : Int) : HTTPExc :=
  ⟨429, .str ("Daily token limit reached (" ++ toString limit ++
              "). Resets at midnight UTC.")⟩

/-- _check_device: verify the device exists and is within the daily
limit. The SELECT, the last_seen UPDATE and the usage SUM run in one
implicit transaction; conn.commit() is reached only when neither
HTTPException is raised, so on the 429 path the last_seen UPDATE is
rolled back when the connection closes — an error result leaves the
durable state equal to the input state. -/
def check_device (limit : Int) (today now : String) (s : State)
    (d : String) : Except HTTPExc State :=
  match s.devices.find? (fun dev => dev.device_id = d) with
  | none => .error unknownDeviceExc
  | some _ =>
    let s' := touchLastSeen s d now
    if dailyTotal s d today ≥ limit then .error (quotaExc limit)
    else .ok s'

/-- register_device (POST /v1/register): the request body's device_id
field is `none` when absent or when the body failed to parse as JSON
(both collapse to the falsy default ""). -/
def register_device (s : State) (device_id? : Option String) (now : String) :
    Except HTTPExc (J × State) :=
  let device_id := device_id?.getD ""
  if device_id = "" then .error ⟨400, .str "device_id is required"⟩
  else
    match s.devices.find? (fun dev => dev.device_id = device_id) with
    | some _ =>
      .ok (.obj [("status", .str "already_registered"),
                 ("device_id", .str device_id)], s)
    | none =>
      .ok (.obj [("status", .str "registered"),
                 ("device_id", .str device_id)],
           { s with devices := (s.devices ++
               [{ device_id := device_id, created_at := now, last_seen := now }]) })

/-- Outcome of one route handler invocation: the JSON response returned,
a StreamingResponse handed to the transport (its body and bookkeeping
run later, see streamGenerator), an HTTPException raised by the handler,
or an uncaught Python exception. -/
inductive Outcome where
  | ok (resp : J)
  | streamResp
  | httpError (status : Nat) (detail : J)
  | pyError

/-- chat_completions, non-streaming branch body (lines 229-254): forward
to the upstream, propagate a non-200 upstream response as
HTTPException(status, resp.json()), otherwise record usage from the
response body's usage object and return the body. `up` is the upstream
POST of the forwarded body: status code and parsed JSON body (`none`
when the body is not JSON, so resp.json() raises). -/
def chatBuffered (today now : String) (up : J → Nat × Option J)
    (s1 : State) (device_id : String) (body : J) : Outcome × State :=
  match up body with
  | (status, data?) =>
    if status ≠ 200 then
      match data? with
      | some j => (.httpError status j, s1)
      | none => (.pyError, s1)
    else
      match data? with
      | none => (.pyError, s1)
      | some data =>
        match data with
        | .obj kvs =>
          match (kvs.lookup "usage").getD (.obj []) with
          | .obj ukvs =>
            (.ok data,
             record_usage s1 device_id today "chat/completions"
               (getNumD ukvs "prompt_tokens" 0)
               (getNumD ukvs "completion_tokens" 0) now)
          | _ => (.pyError, s1)
        | _ => (.pyError, s1)

/-- chat_completions (POST /v1/chat/completions): admission checks in
source order, then dispatch on the body's stream flag. The streaming
branch returns a StreamingResponse whose generator is modelled by
streamGenerator below; the buffered branch is chatBuffered. -/
def chat_completions (limit : Int) (today now : String)
    (up : J → Nat × Option J) (s : State) (auth : String) (body : J) :
    Outcome × State :=
  match extract_device_id auth with
  | .error e => (.httpError e.status e.detail, s)
  | .ok device_id =>
    match check_device limit today now s device_id with
    | .error e => (.httpError e.status e.detail, s)
    | .ok s1 =>
      match body with
      | .obj bkvs =>
        if ((bkvs.lookup "stream").getD (.bool false)).truthy then
          (.streamResp, s1)
        else chatBuffered today now up s1 device_id body
      | _ => (.pyError, s1)

/-- audio_transcriptions (POST /v1/audio/transcriptions): forward the
raw body, propagate non-200, otherwise estimate tokens from the
transcript length with the fixed divisor 4 (estimated_tokens =
max(1, len(text) // 4)) and record (estimate, 0). -/
def audio_transcriptions (limit : Int) (today now : String)
    (up : String → Nat × Option J) (s : State) (auth : String)
    (rawBody : String) : Outcome × State :=
  match extract_device_id auth with
  | .error e => (.httpError e.status e.detail, s)
  | .ok device_id =>
    match check_device limit today now s device_id with
    | .error e => (.httpError e.status e.detail, s)
    | .ok s1 =>
      match up rawBody with
      | (status, data?) =>
        if status ≠ 200 then
          match data? with
          | some j => (.httpError status j, s1)
          | none => (.pyError, s1)
        else
          match data? with
          | none => (.pyError, s1)
          | some data =>
            match data with
            | .obj kvs =>
              match pyLen ((kvs.lookup "text").getD (.str "")) with
              | none => (.pyError, s1)
              | some n =>
                (.ok data,
                 record_usage s1 device_id today "audio/transcriptions"
                   ((max 1 (n / 4) : Nat) : Int) 0 now)
            | _ => (.pyError, s1)

/-- Body of the result-normalization loop in web_search: each Brave
result item yields \x7btitle, url, snippet\x7d; a non-dict item makes
item.get raise AttributeError (`none`). -/
def normalizeItem : J → Option J
  | .obj ikvs =>
    some (.obj [("title", (ikvs.lookup "title").getD (.str "")),
                ("url", (ikvs.lookup "url").getD (.str "")),
                ("snippet", (ikvs.lookup "description").getD (.str ""))])
  | _ => none

/-- Models `for item in x` where every yielded item immediately has
.get called on it: lists yield their elements; empty strings and dicts
iterate zero times; a nonempty string or dict yields a string first
(a character, a key) whose .get raises AttributeError, and any other
value raises TypeError at the `for` itself. -/
def iterResults : J → Option (List J)
  | .arr xs => some xs
  | .str s => if s.isEmpty then some [] else none
  | .obj kvs => if kvs.isEmpty then some [] else none
  | _ => none

/-- The numeric value Python's comparison operators see in a JSON
value: numbers are themselves, booleans are 0/1 (bool is an int
subclass, so min(True, 10) is fine), and every other type is unordered
against an int — min raises TypeError (`none`). -/
def pyNumVal : J → Option Int
  | .num n => some n
  | .bool b => some (if b then 1 else 0)
  | _ => none

/-- data.get("web", \x7b\x7d).get("results", []): the second .get raises
AttributeError (`none`) when the web field's value is not a dict. -/
def resultsOfWeb : J → Option J
  | .obj wkvs => some ((wkvs.lookup "results").getD (.arr []))
  | _ => none

/-- web_search (POST /v1/search): admission, then the query / BRAVE_API_KEY
checks in source order, then the Brave call; count is clamped with
min(body.get("count", 5), 10), which raises TypeError — an uncaught
500, before the BRAVE_API_KEY check — when a supplied count is neither
a number nor a boolean; a non-200 Brave response raises HTTPException(status,
"Brave Search error: " + resp.text); on 200 the result list is
normalized and a fixed (1, 0) is recorded. `up query count` gives the
Brave response: status, resp.text, and parsed JSON body. -/
def web_search (limit : Int) (today now : String) (braveKey : String)
    (up : J → Int → Nat × String × Option J) (s : State) (auth : String)
    (body : J) : Outcome × State :=
  match extract_device_id auth with
  | .error e => (.httpError e.status e.detail, s)
  | .ok device_id =>
    match check_device limit today now s device_id with
    | .error e => (.httpError e.status e.detail, s)
    | .ok s1 =>
      match body with
      | .obj bkvs =>
        let query := (bkvs.lookup "query").getD (.str "")
        if !query.truthy then (.httpError 400 (.str "query is required"), s1)
        else
          match pyNumVal ((bkvs.lookup "count").getD (.num 5)) with
          | none => (.pyError, s1)
          | some c =>
            let count := min c 10
            if braveKey = "" then
              (.httpError 503 (.str "Search not configured on server"), s1)
            else
              match up query count with
              | (status, text, data?) =>
                if status ≠ 200 then
                  (.httpError status (.str ("Brave Search error: " ++ text)), s1)
                else
                  match data? with
                  | none => (.pyError, s1)
                  | some data =>
                    match data with
                    | .obj kvs =>
                      match resultsOfWeb ((kvs.lookup "web").getD (.obj [])) with
                      | none => (.pyError, s1)
                      | some resultsJ =>
                        match iterResults resultsJ with
                        | none => (.pyError, s1)
                        | some items =>
                          match items.mapM normalizeItem with
                          | none => (.pyError, s1)
                          | some results =>
                            (.ok (.obj [("results", .arr results)]),
                             record_usage s1 device_id today "search" 1 0 now)
                    | _ => (.pyError, s1)
      | _ => (.pyError, s1)

/-- get_usage (GET /v1/usage/\x7bdevice_id\x7d): read-only usage report
for the current UTC day. -/
def get_usage (limit : Int) (today : String) (s : State)
    (device_id : String) : J :=
  .obj [("device_id", .str device_id),
        ("date", .str today),
        ("tokens_used", .num (dailyTotal s device_id today)),
        ("tokens_limit", .num limit),
        ("tokens_remaining", .num (max 0 (limit - dailyTotal s device_id today)))]

/-- How one run of stream_generator ended: the generator returned
normally (the code after the async-with ran), the consumer closed it
mid-stream (GeneratorExit at a yield), or an uncaught exception escaped
the body (the RuntimeError from client.stream() on a closed client, or
an AttributeError from the extraction code). -/
inductive Term where
  | completed
  | disconnected
  | crashed
deriving DecidableEq

/-- Observable effect of one stream_generator run: the chunks yielded to
the transport, the (tokens_in, tokens_out) pair passed to _record_usage
if that call executed (`none` when it never ran), and how the run
ended. -/
structure StreamOut where
  events : List String
  recorded : Option (Int × Int)
  term : Term
deriving DecidableEq

/-- The usage-extraction step of stream_generator's loop body for one
nonempty line (lines 211-219): data-framed lines other than the [DONE]
sentinel are parsed with json.loads (`loads`); JSONDecodeError is caught
and the line skipped; a falsy or absent usage field leaves the captured
pair unchanged; a truthy usage object replaces it with that object's
prompt_tokens / completion_tokens; chunk.get or usage.get on a non-dict
raises AttributeError, which the except clause (JSONDecodeError,
KeyError) does not catch (`.error`). -/
def extractFromLine (loads : String → Option J) (acc : Int × Int)
    (line : String) : Except Unit (Int × Int) :=
  if pyStartsWith line "data: " && line ≠ "data: [DONE]" then
    match loads (pyDrop line 6) with
    | none => .ok acc
    | some chunk =>
      match chunk with
      | .obj kvs =>
        match kvs.lookup "usage" with
        | none => .ok acc
        | some u =>
          if u.truthy then
            match u with
            | .obj ukvs =>
              .ok (getNumD ukvs "prompt_tokens" 0,
                   getNumD ukvs "completion_tokens" 0)
            | _ => .error ()
          else .ok acc
      | _ => .error ()
  else .ok acc

/-- The `async for line in resp.aiter_lines()` loop of stream_generator
followed by the _record_usage call after the async-with block. Each
nonempty line is yielded as line+newline before its usage extraction
runs, and every iteration ends with a bare newline yield. `closeAfter =
some k` models the consumer closing the generator once k chunks have
been consumed: GeneratorExit is raised at the yield that produced the
k-th chunk, so everything after that yield — including _record_usage —
is skipped. `cnt` counts chunks yielded so far. -/
def runStream (loads : String → Option J) (closeAfter : Option Nat) :
    List String → Int × Int → Nat → StreamOut
  | [], acc, _ => ⟨[], some acc, .completed⟩
  | line :: rest, acc, cnt =>
    if line ≠ "" then
      if closeAfter = some (cnt + 1) then ⟨[line ++ "\n"], none, .disconnected⟩
      else
        match extractFromLine loads acc line with
        | .error _ => ⟨[line ++ "\n"], none, .crashed⟩
        | .ok acc' =>
          if closeAfter = some (cnt + 2) then
            ⟨[line ++ "\n", "\n"], none, .disconnected⟩
          else
            let r := runStream loads closeAfter rest acc' (cnt + 2)
            ⟨(line ++ "\n") :: "\n" :: r.events, r.recorded, r.term⟩
    else
      if closeAfter = some (cnt + 1) then ⟨["\n"], none, .disconnected⟩
      else
        let r := runStream loads closeAfter rest acc (cnt + 1)
        ⟨"\n" :: r.events, r.recorded, r.term⟩

/-- stream_generator (lines 191-222), as observed by consuming the
generator. `clientClosed` is the state of the enclosing httpx
AsyncClient at the moment the transport iterates the generator: its
first statement, `async with client.stream(...)`, raises RuntimeError
on a closed client — before any yield, before the upstream status is
even known — and nothing more of the body runs. With an open client,
`upStatus` / `errorBody` are the upstream streaming response's status
and raw error body and `lines` the upstream event lines: a non-200
status yields one error event and returns without recording; otherwise
the loop runs, and tokens start at (0, 0), so a fully consumed stream
records exactly once, with (0, 0) when no usage object was seen. A
consumer that closes the generator before ever consuming (`closeAfter =
some 0`) runs none of its body. -/
def streamGenerator (clientClosed : Bool) (loads : String → Option J)
    (upStatus : Nat) (errorBody : String) (lines : List String)
    (closeAfter : Option Nat) : StreamOut :=
  if closeAfter = some 0 then ⟨[], none, .disconnected⟩
  else if clientClosed then ⟨[], none, .crashed⟩
  else if upStatus ≠ 200 then
    ⟨["data: " ++ errorBody ++ "\n\n"], none, .completed⟩
  else runStream loads closeAfter lines (0, 0) 0

/-- The streamed chat response as the deployed program produces it. The
handler returns the StreamingResponse from inside `async with
httpx.AsyncClient(timeout=120.0) as client:` (line 188); the return
exits that block and awaits client.aclose() before the handler
coroutine finishes, and Starlette iterates the generator only after the
handler has returned. Every real run therefore executes the generator
with the client already closed. -/
def streamedChatResponse (loads : String → Option J) (upStatus : Nat)
    (errorBody : String) (lines : List String) (closeAfter : Option Nat) :
    StreamOut :=
  streamGenerator true loads upStatus errorBody lines closeAfter

/-- Specification-side view of one line's usage contribution: the
(prompt_tokens, completion_tokens) pair when the line is a non-[DONE]
data line whose payload parses to an object with a truthy usage object,
`none` otherwise. -/
def lineUsage (loads : String → Option J) (line : String) :
    Option (Int × Int) :=
  if pyStartsWith line "data: " && line ≠ "data: [DONE]" then
    match loads (pyDrop line 6) with
    | some (J.obj kvs) =>
      match kvs.lookup "usage" with
      | some (J.obj ukvs) =>
        if (J.obj ukvs).truthy then
          some (getNumD ukvs "prompt_tokens" 0,
                getNumD ukvs "completion_tokens" 0)
        else none
      | _ => none
    | _ => none
  else none

/-- The last usage object seen across the whole stream, (0, 0) when none
was seen. -/
def lastUsage (loads : String → Option J) (lines : List String) :
    Int × Int :=
  ((lines.filterMap (lineUsage loads)).getLast?).getD (0, 0)

/-- The chunks a fully consumed stream forwards: each nonempty upstream
line followed by a blank-line yield, a blank-line yield alone for empty
upstream lines. -/
def forwardedEvents : List String → List String
  | [] => []
  | line :: rest =>
    if line ≠ "" then (line ++ "\n") :: "\n" :: forwardedEvents rest
    else "\n" :: forwardedEvents rest

/-- The durable database state after a _check_device call: the committed
state on admission, the input state on either HTTPException (the open
transaction is rolled back when the connection closes uncommitted). -/
def checkFinalState (limit : Int) (today now : String) (s : State)
    (d : String) : State :=
  match check_device limit today now s d with
  | .ok s' => s'
  | .error _ => s

/-- The HTTP status _check_device answers with: 200 on admission,
otherwise the raised HTTPException's status code. -/
def checkStatus (limit : Int) (today now : String) (s : State)
    (d : String) : Nat :=
  match check_device limit today now s d with
  | .ok _ => 200
  | .error e => e.status

/-- Whether a handler outcome is a success response (a 2xx JSON body). -/
def Outcome.isSuccess : Outcome → Bool
  | .ok _ => true
  | _ => false

theorem touchLastSeen_usage (s : State) (d now : String) :
    (touchLastSeen s d now).usage = s.usage := rfl

theorem check_device_ok_usage {limit : Int} {today now : String}
    {s s1 : State} {d : String}
    (h : check_device limit today now s d = .ok s1) : s1.usage = s.usage := by
  unfold check_device at h
  cases hf : s.devices.find? (fun dev => dev.device_id = d) with
  | none => rw [hf] at h; exact absurd h (by simp)
  | some dev =>
    rw [hf] at h
    by_cases hq : dailyTotal s d today ≥ limit
    · simp [hq] at h
    · simp [hq] at h
      rw [← h]
      rfl

/-- C9. The usage-lookup endpoint reports tokens_remaining =
max(0, DAILY_TOKEN_LIMIT − tokens_used): it is never negative (an
overshot device reports exactly 0), and tokens_used + tokens_remaining
is at least tokens_limit (it can exceed it, never fall below it). -/
theorem usage_lookup_remaining_clamped (limit : Int) (today : String)
    (s : State) (d : String) :
    get_usage limit today s d =
      J.obj [("device_id", .str d),
             ("date", .str today),
             ("tokens_used", .num (dailyTotal s d today)),
             ("tokens_limit", .num limit),
             ("tokens_remaining", .num (max 0 (limit - dailyTotal s d today)))]
    ∧ 0 ≤ max 0 (limit - dailyTotal s d today)
    ∧ limit ≤ dailyTotal s d today + max 0 (limit - dailyTotal s d today) := by
  refine ⟨rfl, le_max_left 0 _, ?_⟩
  have h := le_max_right 0 (limit - dailyTotal s d today)
  omega

/-- C2. Registering a fresh device_id answers "registered"; the
immediate repeat answers "already_registered" and returns the state
unchanged; exactly one Device row for that id results; the usage table
is untouched; a missing or empty device_id fails with 400 and, raising
before any INSERT, stores nothing. -/
theorem register_idempotent (s : State) (d now now' : String)
    (hne : d ≠ "")
    (hfresh : s.devices.find? (fun dev => dev.device_id = d) = none) :
    ∃ s' : State,
      register_device s (some d) now =
        .ok (.obj [("status", .str "registered"), ("device_id", .str d)], s')
      ∧ register_device s' (some d) now' =
        .ok (.obj [("status", .str "already_registered"), ("device_id", .str d)], s')
      ∧ (s'.devices.filter (fun dev => dev.device_id = d)).length = 1
      ∧ s'.usage = s.usage
      ∧ register_device s none now = .error ⟨400, .str "device_id is required"⟩
      ∧ register_device s (some "") now = .error ⟨400, .str "device_id is required"⟩ := by
  refine ⟨{ s with devices := (s.devices ++ [{ device_id := d, created_at := now, last_seen := now }]) }, ?_, ?_, ?_, rfl, rfl, rfl⟩
  · simp [register_device, hne, hfresh]
  · have hfind : (s.devices ++
        [({ device_id := d, created_at := now, last_seen := now } : Device)]).find?
          (fun dev => dev.device_id = d) =
        some { device_id := d, created_at := now, last_seen := now } := by
      rw [List.find?_append, hfresh, Option.none_or]
      simp [List.find?]
    simp [register_device, hne, hfind]
  · have hnil : s.devices.filter (fun dev => decide (dev.device_id = d)) = [] := by
      rw [List.filter_eq_nil_iff]
      intro a ha
      have := List.find?_eq_none.mp hfresh a ha
      simpa using this
    simp [List.filter_append, hnil]

/-- C2 witness: concrete double registration starting from an empty
database. -/
theorem register_idempotent_witness :
    ∃ s' : State,
      register_device ⟨[], []⟩ (some "dev-1") "t1" =
        .ok (.obj [("status", .str "registered"), ("device_id", .str "dev-1")], s')
      ∧ register_device s' (some "dev-1") "t2" =
        .ok (.obj [("status", .str "already_registered"),
                   ("device_id", .str "dev-1")], s')
      ∧ (s'.devices.filter (fun dev => dev.device_id = "dev-1")).length = 1
      ∧ s'.usage = ([] : List UsageRec)
      ∧ register_device ⟨[], []⟩ none "t1" = .error ⟨400, .str "device_id is required"⟩
      ∧ register_device ⟨[], []⟩ (some "") "t1" =
          .error ⟨400, .str "device_id is required"⟩ :=
  register_idempotent ⟨[], []⟩ "dev-1" "t1" "t2" (by decide) rfl

/-- C1. For a registered device, _check_device raises QuotaExceeded
exactly when the recorded daily total for the request's UTC day has
reached DAILY_TOKEN_LIMIT; under the limit the request is admitted; on
a day with no usage rows the request is admitted whenever the
configured limit is positive (the cap resets by date). The admission
decision reads only the usage already stored — _check_device takes no
cost for the in-flight request, so a request admitted under the limit
is never itself rejected whatever it later records. -/
theorem quota_admission_iff (limit : Int) (today tomorrow now : String)
    (s : State) (d : String)
    (hreg : (s.devices.find? (fun dev => dev.device_id = d)).isSome = true) :
    (check_device limit today now s d = .error (quotaExc limit) ↔
      limit ≤ dailyTotal s d today)
    ∧ (dailyTotal s d today < limit →
        check_device limit today now s d = .ok (touchLastSeen s d now))
    ∧ (s.usage.filter (fun r => r.device_id = d && r.date = tomorrow) = [] →
        0 < limit →
        check_device limit tomorrow now s d = .ok (touchLastSeen s d now)) := by
  obtain ⟨dev, hdev⟩ := Option.isSome_iff_exists.mp hreg
  refine ⟨⟨?_, ?_⟩, ?_, ?_⟩
  · intro h
    unfold check_device at h
    rw [hdev] at h
    by_cases hq : dailyTotal s d today ≥ limit
    · exact hq
    · simp [hq] at h
  · intro h
    unfold check_device
    rw [hdev]
    simp [h]
  · intro h
    unfold check_device
    rw [hdev]
    simp [not_le.mpr h]
  · intro hempty hpos
    unfold check_device
    rw [hdev]
    have htot : dailyTotal s d tomorrow = 0 := by
      simp [dailyTotal, hempty]
    rw [htot]
    simp [not_le.mpr hpos]

/-- A database with one registered device that has consumed exactly 100
tokens (60 in, 40 out) on 2026-10-11. -/
def demoState : State :=
  ⟨[⟨"dev-1", "t0", "t0"⟩],
   [⟨"dev-1", "2026-10-11", "chat/completions", 60, 40, "t0"⟩]⟩

/-- C1 witness: with the cap at 100 and 100 tokens recorded for the
day, the device is rejected; on the next day it is admitted. -/
theorem quota_admission_iff_witness :
    (check_device 100 "2026-10-11" "now1" demoState "dev-1" =
        .error (quotaExc 100) ↔
      (100 : Int) ≤ dailyTotal demoState "dev-1" "2026-10-11")
    ∧ (dailyTotal demoState "dev-1" "2026-10-11" < 100 →
        check_device 100 "2026-10-11" "now1" demoState "dev-1" =
          .ok (touchLastSeen demoState "dev-1" "now1"))
    ∧ (demoState.usage.filter
          (fun r => r.device_id = "dev-1" && r.date = "2026-10-12") = [] →
        (0 : Int) < 100 →
        check_device 100 "2026-10-12" "now1" demoState "dev-1" =
          .ok (touchLastSeen demoState "dev-1" "now1")) :=
  quota_admission_iff 100 "2026-10-11" "2026-10-12" "now1" demoState "dev-1" rfl

/-- C7 counterexample: a registered device at its cap issues an
authenticated request at time now1. The request is rejected with 429
and the durable database is byte-identical to what it was — in
particular last_seen still holds its old value t0, not now1, because
the UPDATE ran inside the transaction that the quota HTTPException
leaves uncommitted (conn.close() in the finally block rolls it back;
conn.commit() on line 112 of server/main.py is reached only on
admission). -/
theorem quota_reject_last_seen_cex :
    checkStatus 100 "2026-10-11" "now1" demoState "dev-1" = 429
    ∧ checkFinalState 100 "2026-10-11" "now1" demoState "dev-1" = demoState
    ∧ (checkFinalState 100 "2026-10-11" "now1" demoState "dev-1").devices.map
        Device.last_seen = ["t0"]
    ∧ ("t0" : String) ≠ "now1" := by
  refine ⟨rfl, rfl, rfl, by decide⟩

/-- C7 amended: on every authenticated request from a registered
device, the last_seen UPDATE executes before quota evaluation, but it
is committed — becomes durable — only when the request is admitted: an
admitted request leaves the device rows with last_seen set to now and
every other column unchanged, and leaves the usage table unchanged,
while a request rejected with QuotaExceeded leaves the whole durable
state unchanged. -/
theorem last_seen_durable_only_on_admission (limit : Int) (today now : String)
    (s : State) (d : String)
    (hreg : (s.devices.find? (fun dev => dev.device_id = d)).isSome = true) :
    (dailyTotal s d today < limit →
      check_device limit today now s d = .ok (touchLastSeen s d now)
      ∧ (checkFinalState limit today now s d).devices =
          (s.devices.map (fun dev =>
            if dev.device_id = d then { dev with last_seen := now } else dev))
      ∧ (checkFinalState limit today now s d).usage = s.usage)
    ∧ (limit ≤ dailyTotal s d today →
        check_device limit today now s d = .error (quotaExc limit)
        ∧ checkFinalState limit today now s d = s) := by
  obtain ⟨dev, hdev⟩ := Option.isSome_iff_exists.mp hreg
  constructor
  · intro h
    have hok : check_device limit today now s d = .ok (touchLastSeen s d now) := by
      unfold check_device
      rw [hdev]
      simp [not_le.mpr h]
    refine ⟨hok, ?_, ?_⟩
    · unfold checkFinalState
      rw [hok]
      rfl
    · unfold checkFinalState
      rw [hok]
      rfl
  · intro h
    have herr : check_device limit today now s d = .error (quotaExc limit) := by
      unfold check_device
      rw [hdev]
      simp [h]
    refine ⟨herr, ?_⟩
    unfold checkFinalState
    rw [herr]

/-- C7 amended, witness: with the cap raised to 1000 the same device
and day are admitted and the commit makes last_seen = now1 durable. -/
theorem last_seen_durable_only_on_admission_witness :
    check_device 1000 "2026-10-11" "now1" demoState "dev-1" =
      .ok (touchLastSeen demoState "dev-1" "now1")
    ∧ (checkFinalState 1000 "2026-10-11" "now1" demoState "dev-1").devices =
        (demoState.devices.map (fun dev =>
          if dev.device_id = "dev-1" then { dev with last_seen := "now1" }
          else dev))
    ∧ (checkFinalState 1000 "2026-10-11" "now1" demoState "dev-1").usage =
        demoState.usage :=
  (last_seen_durable_only_on_admission 1000 "2026-10-11" "now1" demoState "dev-1"
    rfl).1 (by decide)

/-- C3. On the three authenticated routes the admission checks run in
the order Unauthenticated, UnknownDevice, QuotaExceeded, before any
upstream call: a missing or empty bearer credential yields that 401
regardless of the database, and a well-formed but unregistered device
id yields the UnknownDevice 401 regardless of the usage store and of
what any quota evaluation or upstream call would return (the upstream
functions and the usage table are arbitrary and unused). -/
theorem admission_check_order (limit : Int) (today now : String)
    (upC : J → Nat × Option J) (upA : String → Nat × Option J)
    (braveKey : String) (upS : J → Int → Nat × String × Option J)
    (s : State) (body : J) (rawBody : String) :
    (∀ auth e, extract_device_id auth = .error e →
      (chat_completions limit today now upC s auth body).1 =
        .httpError e.status e.detail
      ∧ (audio_transcriptions limit today now upA s auth rawBody).1 =
          .httpError e.status e.detail
      ∧ (web_search limit today now braveKey upS s auth body).1 =
          .httpError e.status e.detail)
    ∧ (∀ auth d, extract_device_id auth = .ok d →
        s.devices.find? (fun dev => dev.device_id = d) = none →
        (chat_completions limit today now upC s auth body).1 =
          .httpError 401 (.str "Unknown device. Call /v1/register first.")
        ∧ (audio_transcriptions limit today now upA s auth rawBody).1 =
            .httpError 401 (.str "Unknown device. Call /v1/register first.")
        ∧ (web_search limit today now braveKey upS s auth body).1 =
            .httpError 401 (.str "Unknown device. Call /v1/register first.")) := by
  constructor
  · intro auth e he
    refine ⟨?_, ?_, ?_⟩
    · unfold chat_completions
      rw [he]
    · unfold audio_transcriptions
      rw [he]
    · unfold web_search
      rw [he]
  · intro auth d hd hfind
    have hchk : check_device limit today now s d = .error unknownDeviceExc := by
      unfold check_device
      rw [hfind]
    refine ⟨?_, ?_, ?_⟩
    · simp only [chat_completions, hd, hchk]
      rfl
    · simp only [audio_transcriptions, hd, hchk]
      rfl
    · simp only [web_search, hd, hchk]
      rfl

/-- C3 witness: a request with no Authorization header gets the
Unauthenticated 401, and a well-formed bearer for an unregistered id
gets the UnknownDevice 401, on concrete inputs. -/
theorem admission_check_order_witness :
    ((chat_completions 100 "2026-10-11" "now1" (fun _ => (200, none))
        (⟨[], []⟩ : State) "" (.obj [])).1 =
      .httpError 401 (.str "Missing Authorization header"))
    ∧ ((chat_completions 100 "2026-10-11" "now1" (fun _ => (200, none))
        (⟨[], []⟩ : State) "Bearer dev-x" (.obj [])).1 =
      .httpError 401 (.str "Unknown device. Call /v1/register first.")) := by
  have h := admission_check_order 100 "2026-10-11" "now1" (fun _ => (200, none))
    (fun _ => (200, none)) "" (fun _ _ => (200, "", none)) (⟨[], []⟩ : State)
    (.obj []) "raw"
  exact ⟨(h.1 "" ⟨401, .str "Missing Authorization header"⟩ rfl).1,
         (h.2 "Bearer dev-x" "dev-x" rfl rfl).1⟩

/-- C8. A successful transcription records exactly one usage row of the
form (estimate, 0), where the estimate is computed from the returned
transcript text only, by the fixed divisor 4: estimated_tokens =
max(1, len(text) // 4). The same transcript text therefore always
yields the same recorded cost. -/
theorem transcription_estimate_recorded (limit : Int) (today now : String)
    (up : String → Nat × Option J) (s s1 : State) (auth d rawBody : String)
    (kvs : List (String × J)) (t : String)
    (hext : extract_device_id auth = .ok d)
    (hchk : check_device limit today now s d = .ok s1)
    (hup : up rawBody = (200, some (.obj kvs)))
    (htext : (kvs.lookup "text").getD (.str "") = .str t) :
    audio_transcriptions limit today now up s auth rawBody =
      (.ok (.obj kvs),
       record_usage s1 d today "audio/transcriptions"
         ((max 1 (t.length / 4) : Nat) : Int) 0 now)
    ∧ (audio_transcriptions limit today now up s auth rawBody).2.usage =
        s1.usage ++ [{ device_id := d, date := today,
                       endpoint := "audio/transcriptions",
                       tokens_in := ((max 1 (t.length / 4) : Nat) : Int),
                       tokens_out := 0, created_at := now }] := by
  have hmain : audio_transcriptions limit today now up s auth rawBody =
      (.ok (.obj kvs),
       record_usage s1 d today "audio/transcriptions"
         ((max 1 (t.length / 4) : Nat) : Int) 0 now) := by
    simp only [audio_transcriptions, hext, hchk, hup, htext]
    norm_num [pyLen]
  refine ⟨hmain, ?_⟩
  rw [hmain]
  rfl

/-- A database with one registered device and no usage. -/
def freshState : State := ⟨[⟨"dev-1", "t0", "t0"⟩], []⟩

/-- C8 witness: an 11-character transcript is charged
max(1, 11 // 4) = 2 tokens in, 0 out. -/
theorem transcription_estimate_recorded_witness :
    audio_transcriptions 100 "2026-10-11" "now1"
        (fun _ => (200, some (.obj [("text", .str "hello world")])))
        freshState "Bearer dev-1" "raw" =
      (.ok (.obj [("text", .str "hello world")]),
       record_usage (touchLastSeen freshState "dev-1" "now1") "dev-1"
         "2026-10-11" "audio/transcriptions"
         ((max 1 ("hello world".length / 4) : Nat) : Int) 0 "now1")
    ∧ (audio_transcriptions 100 "2026-10-11" "now1"
        (fun _ => (200, some (.obj [("text", .str "hello world")])))
        freshState "Bearer dev-1" "raw").2.usage =
        (touchLastSeen freshState "dev-1" "now1").usage ++
          [{ device_id := "dev-1", date := "2026-10-11",
             endpoint := "audio/transcriptions",
             tokens_in := ((max 1 ("hello world".length / 4) : Nat) : Int),
             tokens_out := 0, created_at := "now1" }] :=
  transcription_estimate_recorded 100 "2026-10-11" "now1"
    (fun _ => (200, some (.obj [("text", .str "hello world")])))
    freshState (touchLastSeen freshState "dev-1" "now1") "Bearer dev-1"
    "dev-1" "raw" [("text", .str "hello world")] "hello world"
    rfl rfl rfl rfl

/-- C10. Every successful transcription charges at least one token: the
recorded row is (max(1, len(text) // 4), 0), so its tokens_in is at
least 1 — in particular a transcript shorter than 4 characters
(including the empty one) is charged exactly (1, 0), and the row is
never (0, 0). -/
theorem transcription_min_charge (limit : Int) (today now : String)
    (up : String → Nat × Option J) (s s1 : State) (auth d rawBody : String)
    (kvs : List (String × J)) (t : String)
    (hext : extract_device_id auth = .ok d)
    (hchk : check_device limit today now s d = .ok s1)
    (hup : up rawBody = (200, some (.obj kvs)))
    (htext : (kvs.lookup "text").getD (.str "") = .str t) :
    ∃ r : UsageRec,
      (audio_transcriptions limit today now up s auth rawBody).2.usage =
        s1.usage ++ [r]
      ∧ r.tokens_in = ((max 1 (t.length / 4) : Nat) : Int)
      ∧ 1 ≤ r.tokens_in
      ∧ r.tokens_out = 0
      ∧ (t.length < 4 → r.tokens_in = 1)
      ∧ ¬(r.tokens_in = 0 ∧ r.tokens_out = 0) := by
  have hmain : audio_transcriptions limit today now up s auth rawBody =
      (.ok (.obj kvs),
       record_usage s1 d today "audio/transcriptions"
         ((max 1 (t.length / 4) : Nat) : Int) 0 now) := by
    simp only [audio_transcriptions, hext, hchk, hup, htext]
    norm_num [pyLen]
  refine ⟨{ device_id := d, date := today, endpoint := "audio/transcriptions",
            tokens_in := ((max 1 (t.length / 4) : Nat) : Int),
            tokens_out := 0, created_at := now }, ?_, rfl, ?_, rfl, ?_, ?_⟩
  · rw [hmain]
    rfl
  · dsimp only
    exact_mod_cast le_max_left 1 (t.length / 4)
  · intro hlt
    have : t.length / 4 = 0 := Nat.div_eq_of_lt hlt
    simp [this]
  · intro hc
    obtain ⟨hc1, hc2⟩ := hc
    dsimp only at hc1
    omega

/-- C10 witness: an empty transcript still appends a (1, 0) usage row. -/
theorem transcription_min_charge_witness :
    ∃ r : UsageRec,
      (audio_transcriptions 100 "2026-10-11" "now1"
          (fun _ => (200, some (.obj [("text", .str "")])))
          freshState "Bearer dev-1" "raw").2.usage =
        (touchLastSeen freshState "dev-1" "now1").usage ++ [r]
      ∧ r.tokens_in = ((max 1 ("".length / 4) : Nat) : Int)
      ∧ 1 ≤ r.tokens_in
      ∧ r.tokens_out = 0
      ∧ ("".length < 4 → r.tokens_in = 1)
      ∧ ¬(r.tokens_in = 0 ∧ r.tokens_out = 0) :=
  transcription_min_charge 100 "2026-10-11" "now1"
    (fun _ => (200, some (.obj [("text", .str "")])))
    freshState (touchLastSeen freshState "dev-1" "now1") "Bearer dev-1"
    "dev-1" "raw" [("text", .str "")] "" rfl rfl rfl rfl

theorem record_usage_usage (s : State) (d today endpoint : String)
    (tokens_in tokens_out : Int) (now : String) :
    (record_usage s d today endpoint tokens_in tokens_out now).usage =
      s.usage ++ [{ device_id := d, date := today, endpoint := endpoint,
                    tokens_in := tokens_in, tokens_out := tokens_out,
                    created_at := now }] := rfl


theorem chat_usage_cases (limit : Int) (today now : String)
    (up : J → Nat × Option J) (s : State) (auth : String) (body : J) :
    ((chat_completions limit today now up s auth body).1.isSuccess = false ∧
      (chat_completions limit today now up s auth body).2.usage = s.usage)
    ∨ ∃ d r, extract_device_id auth = .ok d ∧
        (chat_completions limit today now up s auth body).1.isSuccess = true ∧
        (chat_completions limit today now up s auth body).2.usage =
          s.usage ++ [r] ∧
        r.device_id = d := by
  cases hE : extract_device_id auth with
  | error e =>
    left
    refine ⟨?_, ?_⟩ <;> simp [chat_completions, hE, Outcome.isSuccess]
  | ok d =>
    cases hC : check_device limit today now s d with
    | error e =>
      left
      refine ⟨?_, ?_⟩ <;> simp [chat_completions, hE, hC, Outcome.isSuccess]
    | ok s1 =>
      have hu := check_device_ok_usage hC
      simp only [chat_completions, chatBuffered, hE, hC]
      repeat' split
      all_goals try exact Or.inl ⟨rfl, hu⟩
      all_goals right
      all_goals exact ⟨d, _, rfl, rfl, by rw [record_usage_usage, hu], rfl⟩

theorem audio_usage_cases (limit : Int) (today now : String)
    (up : String → Nat × Option J) (s : State) (auth rawBody : String) :
    ((audio_transcriptions limit today now up s auth rawBody).1.isSuccess = false ∧
      (audio_transcriptions limit today now up s auth rawBody).2.usage = s.usage)
    ∨ ∃ d r, extract_device_id auth = .ok d ∧
        (audio_transcriptions limit today now up s auth rawBody).1.isSuccess = true ∧
        (audio_transcriptions limit today now up s auth rawBody).2.usage =
          s.usage ++ [r] ∧
        r.device_id = d := by
  cases hE : extract_device_id auth with
  | error e =>
    left
    refine ⟨?_, ?_⟩ <;> simp [audio_transcriptions, hE, Outcome.isSuccess]
  | ok d =>
    cases hC : check_device limit today now s d with
    | error e =>
      left
      refine ⟨?_, ?_⟩ <;> simp [audio_transcriptions, hE, hC, Outcome.isSuccess]
    | ok s1 =>
      have hu := check_device_ok_usage hC
      simp only [audio_transcriptions, hE, hC]
      repeat' split
      all_goals try exact Or.inl ⟨rfl, hu⟩
      all_goals right
      all_goals exact ⟨d, _, rfl, rfl, by rw [record_usage_usage, hu], rfl⟩

theorem search_usage_cases (limit : Int) (today now : String)
    (braveKey : String) (up : J → Int → Nat × String × Option J)
    (s : State) (auth : String) (body : J) :
    ((web_search limit today now braveKey up s auth body).1.isSuccess = false ∧
      (web_search limit today now braveKey up s auth body).2.usage = s.usage)
    ∨ ∃ d r, extract_device_id auth = .ok d ∧
        (web_search limit today now braveKey up s auth body).1.isSuccess = true ∧
        (web_search limit today now braveKey up s auth body).2.usage =
          s.usage ++ [r] ∧
        r.device_id = d := by
  cases hE : extract_device_id auth with
  | error e =>
    left
    refine ⟨?_, ?_⟩ <;> simp [web_search, hE, Outcome.isSuccess]
  | ok d =>
    cases hC : check_device limit today now s d with
    | error e =>
      left
      refine ⟨?_, ?_⟩ <;> simp [web_search, hE, hC, Outcome.isSuccess]
    | ok s1 =>
      have hu := check_device_ok_usage hC
      simp only [web_search, hE, hC]
      repeat' split
      all_goals try exact Or.inl ⟨rfl, hu⟩
      all_goals right
      all_goals exact ⟨d, _, rfl, rfl, by rw [record_usage_usage, hu], rfl⟩

/-- C5 (amended). A request that fails — authentication failure,
unknown device, quota rejection, upstream non-2xx, or an uncaught
handler error — appends no usage row: the usage table is unchanged
whenever the handler does not return a success response. Every
successful buffered chat, transcription, or search appends exactly one
usage row, attributed to the device named by the request's bearer
credential. On an upstream non-200 response, chat and transcription
propagate the provider's status code and body when the body parses as
JSON — when it does not, resp.json() (lines 241, 278) raises and the
caller gets an uncaught-exception 500 that masks the provider's status
and body — and search always propagates the status with resp.text
inside the "Brave Search error: " message. -/
theorem usage_append_only_on_success (limit : Int) (today now : String)
    (upC : J → Nat × Option J) (upA : String → Nat × Option J)
    (braveKey : String) (upS : J → Int → Nat × String × Option J)
    (s : State) (auth : String) (body : J) (rawBody : String) :
    ((chat_completions limit today now upC s auth body).1.isSuccess = false →
      (chat_completions limit today now upC s auth body).2.usage = s.usage)
    ∧ ((audio_transcriptions limit today now upA s auth rawBody).1.isSuccess = false →
      (audio_transcriptions limit today now upA s auth rawBody).2.usage = s.usage)
    ∧ ((web_search limit today now braveKey upS s auth body).1.isSuccess = false →
      (web_search limit today now braveKey upS s auth body).2.usage = s.usage)
    ∧ ((chat_completions limit today now upC s auth body).1.isSuccess = true →
      ∃ d r, extract_device_id auth = .ok d ∧
        (chat_completions limit today now upC s auth body).2.usage =
          s.usage ++ [r] ∧ r.device_id = d)
    ∧ ((audio_transcriptions limit today now upA s auth rawBody).1.isSuccess = true →
      ∃ d r, extract_device_id auth = .ok d ∧
        (audio_transcriptions limit today now upA s auth rawBody).2.usage =
          s.usage ++ [r] ∧ r.device_id = d)
    ∧ ((web_search limit today now braveKey upS s auth body).1.isSuccess = true →
      ∃ d r, extract_device_id auth = .ok d ∧
        (web_search limit today now braveKey upS s auth body).2.usage =
          s.usage ++ [r] ∧ r.device_id = d)
    ∧ (∀ d s1 st jb bkvs, extract_device_id auth = .ok d →
        check_device limit today now s d = .ok s1 →
        body = .obj bkvs →
        ((bkvs.lookup "stream").getD (J.bool false)).truthy = false →
        upC body = (st, some jb) → st ≠ 200 →
        (chat_completions limit today now upC s auth body).1 =
          .httpError st jb)
    ∧ (∀ d s1 st jb, extract_device_id auth = .ok d →
        check_device limit today now s d = .ok s1 →
        upA rawBody = (st, some jb) → st ≠ 200 →
        (audio_transcriptions limit today now upA s auth rawBody).1 =
          .httpError st jb)
    ∧ (∀ d s1 st text jb? bkvs c, extract_device_id auth = .ok d →
        check_device limit today now s d = .ok s1 →
        body = .obj bkvs →
        ((bkvs.lookup "query").getD (J.str "")).truthy = true →
        pyNumVal ((bkvs.lookup "count").getD (J.num 5)) = some c →
        braveKey ≠ "" →
        upS ((bkvs.lookup "query").getD (J.str ""))
            (min c 10) = (st, text, jb?) →
        st ≠ 200 →
        (web_search limit today now braveKey upS s auth body).1 =
          .httpError st (.str ("Brave Search error: " ++ text)))
    ∧ (∀ d s1 st bkvs, extract_device_id auth = .ok d →
        check_device limit today now s d = .ok s1 →
        body = .obj bkvs →
        ((bkvs.lookup "stream").getD (J.bool false)).truthy = false →
        upC body = (st, none) → st ≠ 200 →
        (chat_completions limit today now upC s auth body).1 =
          Outcome.pyError)
    ∧ (∀ d s1 st, extract_device_id auth = .ok d →
        check_device limit today now s d = .ok s1 →
        upA rawBody = (st, none) → st ≠ 200 →
        (audio_transcriptions limit today now upA s auth rawBody).1 =
          Outcome.pyError) := by
  refine ⟨?_, ?_, ?_, ?_, ?_, ?_, ?_, ?_, ?_, ?_, ?_⟩
  · intro h
    rcases chat_usage_cases limit today now upC s auth body with
      ⟨_, h2⟩ | ⟨d, r, _, h1, _, _⟩
    · exact h2
    · rw [h1] at h; exact absurd h (by simp)
  · intro h
    rcases audio_usage_cases limit today now upA s auth rawBody with
      ⟨_, h2⟩ | ⟨d, r, _, h1, _, _⟩
    · exact h2
    · rw [h1] at h; exact absurd h (by simp)
  · intro h
    rcases search_usage_cases limit today now braveKey upS s auth body with
      ⟨_, h2⟩ | ⟨d, r, _, h1, _, _⟩
    · exact h2
    · rw [h1] at h; exact absurd h (by simp)
  · intro h
    rcases chat_usage_cases limit today now upC s auth body with
      ⟨h1, _⟩ | ⟨d, r, he, _, h2, h3⟩
    · rw [h1] at h; exact absurd h (by simp)
    · exact ⟨d, r, he, h2, h3⟩
  · intro h
    rcases audio_usage_cases limit today now upA s auth rawBody with
      ⟨h1, _⟩ | ⟨d, r, he, _, h2, h3⟩
    · rw [h1] at h; exact absurd h (by simp)
    · exact ⟨d, r, he, h2, h3⟩
  · intro h
    rcases search_usage_cases limit today now braveKey upS s auth body with
      ⟨h1, _⟩ | ⟨d, r, he, _, h2, h3⟩
    · rw [h1] at h; exact absurd h (by simp)
    · exact ⟨d, r, he, h2, h3⟩
  · intro d s1 st jb bkvs hE hC hB hs hU hst
    subst hB
    simp only [chat_completions, chatBuffered, hE, hC, hs, hU]
    simp [hst]
  · intro d s1 st jb hE hC hU hst
    simp only [audio_transcriptions, hE, hC, hU]
    simp [hst]
  · intro d s1 st text jb? bkvs c hE hC hB hq hcnt hbk hU hst
    subst hB
    simp only [web_search, hE, hC, hq, hcnt, hU]
    simp [hbk, hst, hq, hcnt, hU]
  · intro d s1 st bkvs hE hC hB hs hU hst
    subst hB
    simp only [chat_completions, chatBuffered, hE, hC, hs, hU]
    simp [hst]
  · intro d s1 st hE hC hU hst
    simp only [audio_transcriptions, hE, hC, hU]
    simp [hst]

/-- A successful buffered-chat upstream: 200 with a usage object of
7 prompt and 3 completion tokens. -/
def demoUpOk : J → Nat × Option J :=
  fun _ => (200, some (.obj [("usage",
    .obj [("prompt_tokens", .num 7), ("completion_tokens", .num 3)])]))

/-- A failing upstream: status 500 with a JSON error body. -/
def demoUpBad : J → Nat × Option J := fun _ => (500, some (.str "boom"))

/-- C5 witness: on a registered device with an empty usage table, a
successful buffered chat appends one row for that device; the same
request against a 500 upstream propagates (500, body) and appends
nothing. -/
theorem usage_append_only_on_success_witness :
    (∃ d r, extract_device_id "Bearer dev-1" = .ok d ∧
      (chat_completions 100 "2026-10-11" "now1" demoUpOk freshState
        "Bearer dev-1" (.obj [])).2.usage = freshState.usage ++ [r] ∧
      r.device_id = d)
    ∧ (chat_completions 100 "2026-10-11" "now1" demoUpBad freshState
        "Bearer dev-1" (.obj [])).1 = .httpError 500 (.str "boom")
    ∧ (chat_completions 100 "2026-10-11" "now1" demoUpBad freshState
        "Bearer dev-1" (.obj [])).2.usage = freshState.usage := by
  have hok := usage_append_only_on_success 100 "2026-10-11" "now1" demoUpOk
    (fun _ => (200, none)) "" (fun _ _ => (200, "", none)) freshState
    "Bearer dev-1" (.obj []) "raw"
  have hbad := usage_append_only_on_success 100 "2026-10-11" "now1" demoUpBad
    (fun _ => (200, none)) "" (fun _ _ => (200, "", none)) freshState
    "Bearer dev-1" (.obj []) "raw"
  refine ⟨hok.2.2.2.1 rfl, ?_, hbad.1 rfl⟩
  exact hbad.2.2.2.2.2.2.1 "dev-1" (touchLastSeen freshState "dev-1" "now1")
    500 (.str "boom") [] rfl rfl rfl rfl rfl (by decide)


theorem getLast?_cons_getD {α : Type} (p : α) (l : List α) (x : α) :
    ((p :: l).getLast?).getD x = (l.getLast?).getD p := by
  cases l with
  | nil => rfl
  | cons q t =>
    rw [List.getLast?_cons_cons]
    have hs : ((q :: t).getLast?).isSome = true := by
      rw [List.getLast?_isSome]
      simp
    obtain ⟨a, ha⟩ := Option.isSome_iff_exists.mp hs
    rw [ha]
    rfl

theorem extractFromLine_ok {loads : String → Option J} {acc acc' : Int × Int}
    {line : String}
    (h : extractFromLine loads acc line = .ok acc') :
    acc' = (lineUsage loads line).getD acc := by
  unfold extractFromLine at h
  unfold lineUsage
  split at h
  next hc =>
    rw [if_pos hc]
    cases hl : loads (pyDrop line 6) with
    | none =>
      simp [hl] at h ⊢
      simp_all
    | some chunk =>
      cases chunk with
      | obj kvs =>
        cases hlk : List.lookup "usage" kvs with
        | none =>
          simp [hl, hlk] at h ⊢
          simp_all
        | some u =>
          by_cases ht : u.truthy = true
          · cases u with
            | obj ukvs =>
              simp [hl, hlk, ht] at h ⊢
              simp_all
            | null => simp [J.truthy] at ht
            | bool b =>
              simp [hl, hlk, ht] at h
            | num n =>
              simp [hl, hlk, ht] at h
            | str t =>
              simp [hl, hlk, ht] at h
            | arr xs =>
              simp [hl, hlk, ht] at h
          · simp [hl, hlk, ht] at h ⊢
            cases u with
            | obj ukvs => simp [ht]; simp_all
            | null => simp_all
            | bool b => simp_all
            | num n => simp_all
            | str t => simp_all
            | arr xs => simp_all
      | null => simp [hl] at h
      | bool b => simp [hl] at h
      | num n => simp [hl] at h
      | str t => simp [hl] at h
      | arr xs => simp [hl] at h
  next hc =>
    rw [if_neg hc]
    simp at h
    simp_all

theorem runStream_completed (loads : String → Option J) (lines : List String)
    (acc : Int × Int) (cnt : Nat)
    (h : (runStream loads none lines acc cnt).term = .completed) :
    (runStream loads none lines acc cnt).recorded =
      some (((lines.filterMap (lineUsage loads)).getLast?).getD acc)
    ∧ (runStream loads none lines acc cnt).events = forwardedEvents lines := by
  induction lines generalizing acc cnt with
  | nil => exact ⟨rfl, rfl⟩
  | cons line rest ih =>
    by_cases hline : line = ""
    · subst hline
      have hstep : runStream loads none ("" :: rest) acc cnt =
          ⟨"\n" :: (runStream loads none rest acc (cnt + 1)).events,
           (runStream loads none rest acc (cnt + 1)).recorded,
           (runStream loads none rest acc (cnt + 1)).term⟩ := by
        simp [runStream]
      rw [hstep] at h ⊢
      obtain ⟨h1, h2⟩ := ih acc (cnt + 1) h
      have hu : lineUsage loads "" = none := by
        simp [lineUsage, pyStartsWith]
      constructor
      · rw [h1]
        simp [List.filterMap_cons, hu]
      · simp [forwardedEvents, h2]
    · cases hx : extractFromLine loads acc line with
      | error u =>
        have hstep : (runStream loads none (line :: rest) acc cnt).term =
            .crashed := by
          simp [runStream, hline, hx]
        rw [hstep] at h
        exact absurd h (by simp)
      | ok acc' =>
        have hstep : runStream loads none (line :: rest) acc cnt =
            ⟨(line ++ "\n") :: "\n" ::
               (runStream loads none rest acc' (cnt + 2)).events,
             (runStream loads none rest acc' (cnt + 2)).recorded,
             (runStream loads none rest acc' (cnt + 2)).term⟩ := by
          simp [runStream, hline, hx]
        rw [hstep] at h ⊢
        obtain ⟨h1, h2⟩ := ih acc' (cnt + 2) h
        have hacc : acc' = (lineUsage loads line).getD acc :=
          extractFromLine_ok hx
        constructor
        · rw [h1, hacc]
          cases hu : lineUsage loads line with
          | none => simp [List.filterMap_cons, hu]
          | some p => simp [List.filterMap_cons, hu, getLast?_cons_getD]
        · simp [forwardedEvents, hline, h2]

/-- The generator body in isolation, iterated against an open client —
the configuration the spec intends (a client that outlives the
response), not the one the program produces. When such a run is
consumed to the end, _record_usage executes exactly once, with the
prompt/completion pair of the last usage object seen among the
parseable data-line payloads, (0, 0) when none was seen; every
upstream line is forwarded; and a line whose payload does not parse as
JSON never changes the captured pair or fails the stream
(json.JSONDecodeError is caught and the line skipped). -/
theorem streaming_usage_capture (loads : String → Option J)
    (lines : List String) (errorBody : String)
    (h : (streamGenerator false loads 200 errorBody lines none).term =
      .completed) :
    (streamGenerator false loads 200 errorBody lines none).recorded =
      some (lastUsage loads lines)
    ∧ (streamGenerator false loads 200 errorBody lines none).events =
        forwardedEvents lines
    ∧ (∀ acc line, loads (pyDrop line 6) = none →
        extractFromLine loads acc line = .ok acc) := by
  have hred : streamGenerator false loads 200 errorBody lines none =
      runStream loads none lines (0, 0) 0 := by
    simp [streamGenerator]
  rw [hred] at h ⊢
  obtain ⟨h1, h2⟩ := runStream_completed loads lines (0, 0) 0 h
  refine ⟨?_, h2, ?_⟩
  · rw [h1]
    rfl
  · intro acc line hl
    unfold extractFromLine
    split
    · rw [hl]
    · rfl

/-- A concrete json.loads for a simulated upstream stream: the payload
"chunkA" is a chunk with no usage field, "final" carries a usage object
with prompt_tokens 10 and completion_tokens 20, "notjson" does not
parse, and everything else does not parse either. -/
def demoLoads : String → Option J := fun p =>
  if p = "chunkA" then some (.obj [("choices", .arr [])])
  else if p = "final" then
    some (.obj [("usage",
      .obj [("prompt_tokens", .num 10), ("completion_tokens", .num 20)])])
  else none

/-- A simulated upstream event stream: a content chunk, a blank
keep-alive line, an unparseable payload, the final chunk carrying the
usage object, and the [DONE] sentinel. -/
def demoLines : List String :=
  ["data: chunkA", "", "data: notjson", "data: final", "data: [DONE]"]

/-- Concrete instance of streaming_usage_capture: an open-client run of
the generator body over the simulated stream records exactly (10, 20),
the pair in the final chunk's usage object, and the unparseable line is
forwarded without effect. -/
theorem streaming_usage_capture_witness :
    (streamGenerator false demoLoads 200 "" demoLines none).term =
      Term.completed
    ∧ (streamGenerator false demoLoads 200 "" demoLines none).recorded =
        some (10, 20)
    ∧ lastUsage demoLoads demoLines = (10, 20) := by
  refine ⟨by decide, ?_, by decide⟩
  have h := (streaming_usage_capture demoLoads demoLines "" (by decide)).1
  rw [h]
  decide

/-- C4 (code behavior at the failing input): the program's streamed
chat response over the P6 stream — the simulated upstream whose final
chunk carries usage (10, 20), consumed in full. The run crashes with
RuntimeError at client.stream() before the first yield, because the
handler's return closed the httpx client: no event is forwarded and
nothing is recorded, and indeed no streamed run with any input ever
records anything. The generator body itself, iterated against an open
client as the spec intends, would have recorded (10, 20) — the slip is
the client scoping, not the extraction logic. -/
theorem streamed_run_never_records :
    streamedChatResponse demoLoads 200 "" demoLines none =
      ⟨[], none, Term.crashed⟩
    ∧ lastUsage demoLoads demoLines = (10, 20)
    ∧ (streamGenerator false demoLoads 200 "" demoLines none).recorded =
        some (10, 20)
    ∧ (∀ (loads : String → Option J) (upStatus : Nat) (errorBody : String)
        (lines : List String) (closeAfter : Option Nat),
        (streamedChatResponse loads upStatus errorBody lines
          closeAfter).recorded = none) := by
  refine ⟨by decide, by decide, by decide, ?_⟩
  intro loads upStatus errorBody lines closeAfter
  unfold streamedChatResponse streamGenerator
  split
  · rfl
  · rfl

/-- C6 (code behavior at the failing input): the same simulated stream
with the consumer disconnecting after seven chunks — the moment the
claim describes, right after the usage pair would have been captured.
The recording step does not execute: the real run has already crashed
at client.stream() on the closed client before the first yield, so
nothing was forwarded or recorded; and even iterated against an open
client, the disconnect raises GeneratorExit at the yield and the
_record_usage call after the async-with block — which has no
try/finally — is skipped, although (10, 20) had been captured. -/
theorem stream_disconnect_skips_record :
    (streamedChatResponse demoLoads 200 "" demoLines (some 7)).recorded = none
    ∧ (streamedChatResponse demoLoads 200 "" demoLines (some 7)).term =
        Term.crashed
    ∧ (streamedChatResponse demoLoads 200 "" demoLines (some 7)).events = []
    ∧ (streamGenerator false demoLoads 200 "" demoLines (some 7)).term =
        Term.disconnected
    ∧ (streamGenerator false demoLoads 200 "" demoLines (some 7)).recorded =
        none := by
  refine ⟨by decide, by decide, by decide, by decide, by decide⟩

/-- C5 counterexample: a buffered chat request from a registered device
whose upstream answers 502 with a body that is not JSON (for example an
HTML gateway error page, so resp.json() has nothing to parse). The
claim says the provider's status code and body are propagated rather
than masked; instead resp.json() inside the raise on line 241 throws
JSONDecodeError, which escapes the handler as an uncaught-exception 500
— the 502 and its body never reach the caller. No usage row is
appended either way. -/
theorem upstream_error_masked_cex :
    (chat_completions 100 "2026-10-11" "now1" (fun _ => (502, none))
      freshState "Bearer dev-1" (.obj [])).1 = Outcome.pyError
    ∧ (chat_completions 100 "2026-10-11" "now1" (fun _ => (502, none))
        freshState "Bearer dev-1" (.obj [])).2.usage = freshState.usage := by
  refine ⟨rfl, rfl⟩
